import Mathlib

/-!
Verification of the localStorage-backed mock persistence layer of the
task-manager repository (the `mockAuthAPI` / `mockTaskAPI` objects appended to
`src/frontend/src/pages/Dashboard.jsx`, plus the form validator `validateForm`
of the Dashboard component).

Modelling conventions:
- localStorage state is the `Store` record (users, tasks, current session user,
  bearer token); each operation is a function from `Store` to a response
  envelope paired with the next `Store`.
- Nondeterministic inputs of the code (`generateId()`, `Date.now()`) are passed
  in as explicit arguments.
- Timestamps are modelled as natural numbers; the ISO-8601 strings the code
  stores are order-isomorphic to the instants they encode.
- JS objects whose keys may be absent (patches) are records of `Option` fields;
  `none` models an absent key.  JS `x || d` on strings treats the empty string
  as falsy, modelled by `jsOr`.
- The four task operations that dereference `user._id` without a null guard
  (`getOne`, `update`, `delete`, `getStats`) are modelled in `Except String`:
  `.error` models the thrown `TypeError`.  JS `&&` short-circuiting in their
  callbacks is modelled faithfully, so the dereference is only evaluated when
  the callback reaches it.
- `Array.prototype.sort` (stable per ES2019) is modelled by the Mathlib stable
  `List.insertionSort`; a comparator returning `NaN` (undefined priority rank)
  is treated as `+0` per the ECMAScript `SortCompare` specification.
- String lengths are code-point counts (the app only handles such data where
  the distinction from UTF-16 units is immaterial), `localeCompare` is modelled
  by the lexicographic order on `String`, and `toLowerCase` by
  `String.toLower`.
-/

namespace Mock

/-- A stored user record (collection `mock_users`). -/
structure User where
  _id : String
  name : String
  email : String
  password : String
  createdAt : Nat
deriving Repr, DecidableEq

/-- A user object as returned to callers and stored as the session snapshot
(`mock_currentUser`): the stored record minus its `password` key.  The
`password` field here is an `Option` that models the *presence of the JS
`password` key* on the object (`none` = key absent); `updateProfile` can merge
a key back in. -/
structure PubUser where
  _id : String
  name : String
  email : String
  createdAt : Nat
  password : Option String := none
deriving Repr, DecidableEq

/-- A stored task record (collection `mock_tasks`). -/
structure Task where
  _id : String
  userId : String
  title : String
  description : String
  status : String
  priority : String
  dueDate : Option String
  createdAt : Nat
  updatedAt : Nat
deriving Repr, DecidableEq

/-- The localStorage state used by the mock API: `mock_users`, `mock_tasks`,
`mock_currentUser`, `mock_token`. -/
structure Store where
  users : List User
  tasks : List Task
  currentUser : Option PubUser
  token : Option String
deriving Repr, DecidableEq

/-- The uniform response envelope of every mock operation. -/
structure Envelope (α : Type) where
  success : Bool
  data : Option α := none
  message : Option String := none
deriving Repr, DecidableEq

/-- Base64 alphabet used by `btoa`. -/
def b64Chars : List Char :=
  "ABCDEFGHIJKLMNOPQRSTUVWXYZabcdefghijklmnopqrstuvwxyz0123456789+/".toList

/-- Character for a 6-bit group. -/
def b64Char (n : Nat) : Char := b64Chars.getD n '?'

/-- Base64-encode a byte sequence, with `=` padding, as `btoa` does. -/
def b64Encode : List Nat → List Char
  | [] => []
  | [a] => [b64Char (a / 4), b64Char (a % 4 * 16), '=', '=']
  | [a, b] => [b64Char (a / 4), b64Char (a % 4 * 16 + b / 16), b64Char (b % 16 * 4), '=']
  | a :: b :: c :: rest =>
      b64Char (a / 4) :: b64Char (a % 4 * 16 + b / 16) ::
      b64Char (b % 16 * 4 + c / 64) :: b64Char (c % 64) :: b64Encode rest

/-- JS `btoa` on a latin1 string: base64 of its character codes. -/
def btoa (s : String) : String := String.mk (b64Encode (s.toList.map Char.toNat))

/-- `hashPassword` from the mock: `btoa(password)`. -/
def hashPassword (password : String) : String := btoa password

/-- `verifyPassword` from the mock: `btoa(password) === hashed`. -/
def verifyPassword (password hashed : String) : Bool := btoa password == hashed

/-- JS `v || d` for a possibly-absent string value: absent and the empty
string are falsy. -/
def jsOr (v : Option String) (d : String) : String :=
  match v with
  | none => d
  | some s => if s == "" then d else s

/-- JS `v || null` for a possibly-absent string value. -/
def jsOrNull (v : Option String) : Option String :=
  match v with
  | none => none
  | some s => if s == "" then none else some s

/-- `findIndex` combined with the subsequent element access: the first element
satisfying the predicate together with its index. -/
def findWithIdx (p : α → Bool) : List α → Option (Nat × α)
  | [] => none
  | a :: as => if p a then some (0, a) else (findWithIdx p as).map (fun x => (x.1 + 1, x.2))

/-- Replace the element at an index, leaving other positions unchanged
(`arr[i] = v` on a JS array index known to exist). -/
def modifyAt (f : α → α) : Nat → List α → List α
  | _, [] => []
  | 0, a :: as => f a :: as
  | n + 1, a :: as => a :: modifyAt f n as

/-- Evaluating `user._id` on the session snapshot: throws a `TypeError` when
no current user exists. -/
def readUserId (cu : Option PubUser) : Except String String :=
  match cu with
  | none => Except.error "TypeError: cannot read _id of null"
  | some u => Except.ok u._id

/-- `Array.prototype.find` with a callback that may throw. -/
def findME (p : α → Except ε Bool) : List α → Except ε (Option α)
  | [] => Except.ok none
  | a :: as =>
    match p a with
    | Except.error e => Except.error e
    | Except.ok true => Except.ok (some a)
    | Except.ok false => findME p as

/-- `Array.prototype.findIndex` (plus the element access) with a callback that
may throw. -/
def findWithIdxE (p : α → Except ε Bool) : List α → Except ε (Option (Nat × α))
  | [] => Except.ok none
  | a :: as =>
    match p a with
    | Except.error e => Except.error e
    | Except.ok true => Except.ok (some (0, a))
    | Except.ok false =>
      match findWithIdxE p as with
      | Except.error e => Except.error e
      | Except.ok r => Except.ok (r.map (fun x => (x.1 + 1, x.2)))

/-- `Array.prototype.filter` with a callback that may throw. -/
def filterME (p : α → Except ε Bool) : List α → Except ε (List α)
  | [] => Except.ok []
  | a :: as =>
    match p a with
    | Except.error e => Except.error e
    | Except.ok b =>
      match filterME p as with
      | Except.error e => Except.error e
      | Except.ok rest => Except.ok (if b then a :: rest else rest)

/-- The ownership callback `t => t._id === id && t.userId === user._id`:
`user._id` is dereferenced only when the left conjunct holds. -/
def ownPred (cu : Option PubUser) (id : String) (t : Task) : Except String Bool :=
  if t._id == id then (readUserId cu).map (fun uid => t.userId == uid)
  else Except.ok false

/-- Input of `mockAuthAPI.signup`. -/
structure SignupData where
  name : String
  email : String
  password : String
deriving Repr, DecidableEq

/-- Input of `mockAuthAPI.login`. -/
structure LoginData where
  email : String
  password : String
deriving Repr, DecidableEq

/-- The `{token, user}` payload returned by signup and login. -/
structure AuthData where
  token : String
  user : PubUser
deriving Repr, DecidableEq

/-- Input of `mockAuthAPI.updateProfile`: the object keys the application and
this development exercise (`name`, `email`, and a possible stray `password`
key); `none` models an absent key, which the JS spread leaves untouched. -/
structure ProfilePatch where
  name : Option String := none
  email : Option String := none
  password : Option String := none
deriving Repr, DecidableEq

/-- Input of `mockAuthAPI.changePassword`. -/
structure PwData where
  currentPassword : String
  newPassword : String
deriving Repr, DecidableEq

/-- `mockAuthAPI.signup`: `uid` and `tok` stand for the two `generateId()`
results, `now` for `Date.now()`. -/
def mockAuthAPI.signup (uid tok : String) (now : Nat) (d : SignupData) (s : Store) :
    Envelope AuthData × Store :=
  if (s.users.find? (fun u => u.email == d.email)).isSome then
    ({ success := false, message := some "Email already registered" }, s)
  else
    let newUser : User :=
      { _id := uid, name := d.name, email := d.email,
        password := hashPassword d.password, createdAt := now }
    let userWithoutPassword : PubUser :=
      { _id := uid, name := d.name, email := d.email, createdAt := now, password := none }
    ({ success := true, data := some { token := tok, user := userWithoutPassword } },
     { s with users := s.users ++ [newUser],
              currentUser := some userWithoutPassword, token := some tok })

/-- `mockAuthAPI.login`. -/
def mockAuthAPI.login (tok : String) (d : LoginData) (s : Store) :
    Envelope AuthData × Store :=
  match s.users.find? (fun u => u.email == d.email) with
  | none => ({ success := false, message := some "Invalid email or password" }, s)
  | some u =>
    if verifyPassword d.password u.password then
      let userWithoutPassword : PubUser :=
        { _id := u._id, name := u.name, email := u.email,
          createdAt := u.createdAt, password := none }
      ({ success := true, data := some { token := tok, user := userWithoutPassword } },
       { s with currentUser := some userWithoutPassword, token := some tok })
    else
      ({ success := false, message := some "Invalid email or password" }, s)

/-- `mockAuthAPI.getMe`. -/
def mockAuthAPI.getMe (s : Store) : Envelope PubUser × Store :=
  match s.currentUser with
  | none => ({ success := false, message := some "Not authenticated" }, s)
  | some u => ({ success := true, data := some u }, s)

/-- `{...user, ...userData}` on the session snapshot. -/
def mergePub (u : PubUser) (p : ProfilePatch) : PubUser :=
  { u with name := p.name.getD u.name, email := p.email.getD u.email,
           password := match p.password with | some pw => some pw | none => u.password }

/-- `{...users[userIndex], ...userData}` on the stored record: a `password`
key in the patch overwrites the stored credential with the raw patch value. -/
def mergeUser (u : User) (p : ProfilePatch) : User :=
  { u with name := p.name.getD u.name, email := p.email.getD u.email,
           password := p.password.getD u.password }

/-- `mockAuthAPI.updateProfile`. -/
def mockAuthAPI.updateProfile (p : ProfilePatch) (s : Store) :
    Envelope PubUser × Store :=
  match s.currentUser with
  | none => ({ success := false, message := some "Not authenticated" }, s)
  | some u =>
    let updatedUser := mergePub u p
    let users' :=
      match findWithIdx (fun v => v._id == u._id) s.users with
      | some (i, v) => modifyAt (fun _ => mergeUser v p) i s.users
      | none => s.users
    ({ success := true, data := some updatedUser },
     { s with currentUser := some updatedUser, users := users' })

/-- `mockAuthAPI.changePassword`.  Note the fall-through of the source: when
the session user is not found in the stored users array the function returns
the success envelope without changing anything. -/
def mockAuthAPI.changePassword (d : PwData) (s : Store) : Envelope Unit × Store :=
  match s.currentUser with
  | none => ({ success := false, message := some "Not authenticated" }, s)
  | some u =>
    match findWithIdx (fun v => v._id == u._id) s.users with
    | none => ({ success := true, message := some "Password changed successfully" }, s)
    | some (i, v) =>
      if verifyPassword d.currentPassword v.password then
        ({ success := true, message := some "Password changed successfully" },
         { s with users :=
            modifyAt (fun w => { w with password := hashPassword d.newPassword }) i s.users })
      else
        ({ success := false, message := some "Current password is incorrect" }, s)

/-- `mockAuthAPI.deleteAccount`. -/
def mockAuthAPI.deleteAccount (s : Store) : Envelope Unit × Store :=
  match s.currentUser with
  | none => ({ success := false, message := some "Not authenticated" }, s)
  | some u =>
    ({ success := true, message := some "Account deleted successfully" },
     { s with users := s.users.filter (fun v => !(v._id == u._id)),
              tasks := s.tasks.filter (fun t => !(t.userId == u._id)),
              currentUser := none, token := none })

/-- `mockAuthAPI.logout`. -/
def mockAuthAPI.logout (s : Store) : Envelope Unit × Store :=
  ({ success := true, message := some "Logged out successfully" },
   { s with currentUser := none, token := none })

/-- Query parameters of `mockTaskAPI.getAll`; `none` models an absent key. -/
structure GetAllParams where
  status : Option String := none
  priority : Option String := none
  search : Option String := none
  sort : Option String := none
deriving Repr, DecidableEq

/-- The `{data, total}` payload of `mockTaskAPI.getAll`. -/
structure TaskList where
  data : List Task
  total : Nat
deriving Repr, DecidableEq

/-- The stats payload; `inProgress` models the JS key `in-progress`. -/
structure Stats where
  total : Nat
  pending : Nat
  inProgress : Nat
  completed : Nat
deriving Repr, DecidableEq

/-- Input of `mockTaskAPI.create` and of the dashboard form. -/
structure TaskData where
  title : String
  description : Option String := none
  status : Option String := none
  priority : Option String := none
  dueDate : Option String := none
deriving Repr, DecidableEq

/-- Patch object of `mockTaskAPI.update`: the object keys the application and
this development exercise; `none` models an absent key, which the JS spread
leaves untouched. -/
structure TaskPatch where
  userId : Option String := none
  title : Option String := none
  description : Option String := none
  status : Option String := none
  priority : Option String := none
  dueDate : Option String := none
deriving Repr, DecidableEq

/-- `needle` occurs as a contiguous sublist of `hay` (JS `String.includes`
after both sides are lowered, on the underlying character lists). -/
def listSub (needle : List Char) : List Char → Bool
  | [] => needle.isEmpty
  | c :: rest => needle.isPrefixOf (c :: rest) || listSub needle rest

/-- JS `hay.includes(needle)`. -/
def strIncludes (hay needle : String) : Bool := listSub needle.toList hay.toList

/-- The status filter step of `getAll`: applied only when `params.status` is
truthy and not `"all"`. -/
def statusFilter (p : GetAllParams) (ts : List Task) : List Task :=
  match p.status with
  | some st => if st != "" && st != "all" then ts.filter (fun t => t.status == st) else ts
  | none => ts

/-- The priority filter step of `getAll`. -/
def priorityFilter (p : GetAllParams) (ts : List Task) : List Task :=
  match p.priority with
  | some pr => if pr != "" && pr != "all" then ts.filter (fun t => t.priority == pr) else ts
  | none => ts

/-- The search predicate of `getAll`:
`t.title.toLowerCase().includes(q) || (t.description && ...)`. -/
def searchHit (ql : String) (t : Task) : Bool :=
  strIncludes t.title.toLower ql ||
  (t.description != "" && strIncludes t.description.toLower ql)

/-- The search filter step of `getAll`: applied only when `params.search` is
truthy. -/
def searchFilter (p : GetAllParams) (ts : List Task) : List Task :=
  match p.search with
  | some q => if q != "" then ts.filter (searchHit q.toLower) else ts
  | none => ts

/-- `priorityOrder` of the priority sort case. -/
def prioRank : String → Nat
  | "high" => 1
  | "medium" => 2
  | "low" => 3
  | _ => 0

/-- The priority string has an entry in `priorityOrder`. -/
def validPrio (s : String) : Bool := s == "high" || s == "medium" || s == "low"

/-- The JS comparator `priorityOrder[a.priority] - priorityOrder[b.priority]`:
when either rank is `undefined` the subtraction is `NaN`, which the
ECMAScript `SortCompare` operation treats as `+0`. -/
def jsPrioCmp (a b : Task) : Int :=
  if validPrio a.priority && validPrio b.priority then
    (prioRank a.priority : Int) - (prioRank b.priority : Int)
  else 0

/-- Order induced by the `newest` comparator `date(b) - date(a) <= 0`. -/
def rNewest (a b : Task) : Prop := b.createdAt ≤ a.createdAt

/-- Order induced by the `oldest` comparator. -/
def rOldest (a b : Task) : Prop := a.createdAt ≤ b.createdAt

/-- Order induced by the `title` comparator (`localeCompare` modelled as the
lexicographic order on strings). -/
def rTitle (a b : Task) : Prop := a.title ≤ b.title

/-- Order induced by the `priority` comparator. -/
def rPriority (a b : Task) : Prop := jsPrioCmp a b ≤ 0

/-- Rank comparison on priorities; agrees with `rPriority` on tasks whose
priorities are valid. -/
def rPrioRank (a b : Task) : Prop := prioRank a.priority ≤ prioRank b.priority

instance : DecidableRel rNewest :=
  fun a b => inferInstanceAs (Decidable (b.createdAt ≤ a.createdAt))

instance : DecidableRel rOldest :=
  fun a b => inferInstanceAs (Decidable (a.createdAt ≤ b.createdAt))

instance : DecidableRel rTitle :=
  fun a b => inferInstanceAs (Decidable (a.title ≤ b.title))

instance : DecidableRel rPriority :=
  fun a b => inferInstanceAs (Decidable (jsPrioCmp a b ≤ 0))

instance : DecidableRel rPrioRank :=
  fun a b => inferInstanceAs (Decidable (prioRank a.priority ≤ prioRank b.priority))

instance : IsTotal Task rNewest :=
  ⟨fun a b => Nat.le_total b.createdAt a.createdAt⟩

instance : IsTrans Task rNewest :=
  ⟨fun _ _ _ h1 h2 => Nat.le_trans h2 h1⟩

instance : IsTotal Task rOldest :=
  ⟨fun a b => Nat.le_total a.createdAt b.createdAt⟩

instance : IsTrans Task rOldest :=
  ⟨fun _ _ _ h1 h2 => Nat.le_trans h1 h2⟩

instance : IsTotal Task rTitle :=
  ⟨fun a b => le_total a.title b.title⟩

instance : IsTrans Task rTitle :=
  ⟨fun _ _ _ h1 h2 => le_trans h1 h2⟩

instance : IsTotal Task rPrioRank :=
  ⟨fun a b => Nat.le_total (prioRank a.priority) (prioRank b.priority)⟩

instance : IsTrans Task rPrioRank :=
  ⟨fun _ _ _ h1 h2 => Nat.le_trans h1 h2⟩

/-- The sort step of `getAll` (`tasks.sort(...)`, stable per ES2019, modelled
by the stable `List.insertionSort`); a falsy or unrecognized sort key leaves
the order unchanged. -/
def applySort (p : GetAllParams) (ts : List Task) : List Task :=
  match p.sort with
  | none => ts
  | some k =>
    if k == "newest" then List.insertionSort rNewest ts
    else if k == "oldest" then List.insertionSort rOldest ts
    else if k == "title" then List.insertionSort rTitle ts
    else if k == "priority" then List.insertionSort rPriority ts
    else ts

/-- The filter pipeline of `getAll` for the current user `u`: ownership
filter, then status, priority and search filters in order. -/
def filteredTasks (p : GetAllParams) (s : Store) (u : PubUser) : List Task :=
  searchFilter p (priorityFilter p (statusFilter p
    (s.tasks.filter (fun t => t.userId == u._id))))

/-- The task list `getAll` returns for the current user `u`. -/
def getAllResult (p : GetAllParams) (s : Store) (u : PubUser) : List Task :=
  applySort p (filteredTasks p s u)

/-- `mockTaskAPI.getAll`. -/
def mockTaskAPI.getAll (p : GetAllParams) (s : Store) : Envelope TaskList × Store :=
  match s.currentUser with
  | none => ({ success := false, message := some "Not authenticated" }, s)
  | some u =>
    let ts := getAllResult p s u
    ({ success := true, data := some { data := ts, total := ts.length } }, s)

/-- `mockTaskAPI.getOne`: no null-session guard; the ownership callback can
throw when no current user exists. -/
def mockTaskAPI.getOne (id : String) (s : Store) :
    Except String (Envelope Task × Store) := do
  let t? ← findME (ownPred s.currentUser id) s.tasks
  match t? with
  | none => pure ({ success := false, message := some "Task not found" }, s)
  | some t => pure ({ success := true, data := some t }, s)

/-- `mockTaskAPI.create`: `tid` stands for `generateId()`, `now` for the two
identical `new Date()` timestamps.  Note the absence of any validation. -/
def mockTaskAPI.create (tid : String) (now : Nat) (d : TaskData) (s : Store) :
    Envelope Task × Store :=
  match s.currentUser with
  | none => ({ success := false, message := some "Not authenticated" }, s)
  | some u =>
    let newTask : Task :=
      { _id := tid, userId := u._id, title := d.title,
        description := jsOr d.description "",
        status := jsOr d.status "pending",
        priority := jsOr d.priority "medium",
        dueDate := jsOrNull d.dueDate,
        createdAt := now, updatedAt := now }
    ({ success := true, data := some newTask },
     { s with tasks := s.tasks ++ [newTask] })

/-- `{...tasks[taskIndex], ...taskData, updatedAt: now}`: every key present in
the patch, `userId` included, overrides the stored value; `updatedAt` is
always refreshed. -/
def applyTaskPatch (t : Task) (p : TaskPatch) (now : Nat) : Task :=
  { _id := t._id,
    userId := p.userId.getD t.userId,
    title := p.title.getD t.title,
    description := p.description.getD t.description,
    status := p.status.getD t.status,
    priority := p.priority.getD t.priority,
    dueDate := match p.dueDate with | some d => some d | none => t.dueDate,
    createdAt := t.createdAt,
    updatedAt := now }

/-- `mockTaskAPI.update`: no null-session guard. -/
def mockTaskAPI.update (now : Nat) (id : String) (p : TaskPatch) (s : Store) :
    Except String (Envelope Task × Store) := do
  let r ← findWithIdxE (ownPred s.currentUser id) s.tasks
  match r with
  | none => pure ({ success := false, message := some "Task not found" }, s)
  | some (i, t0) =>
    let t1 := applyTaskPatch t0 p now
    pure ({ success := true, data := some t1 },
          { s with tasks := modifyAt (fun _ => t1) i s.tasks })

/-- `mockTaskAPI.delete`: no null-session guard; `splice(i, 1)` is
`List.eraseIdx`. -/
def mockTaskAPI.delete (id : String) (s : Store) :
    Except String (Envelope Unit × Store) := do
  let r ← findWithIdxE (ownPred s.currentUser id) s.tasks
  match r with
  | none => pure ({ success := false, message := some "Task not found" }, s)
  | some (i, _) =>
    pure ({ success := true, message := some "Task deleted successfully" },
          { s with tasks := s.tasks.eraseIdx i })

/-- `mockTaskAPI.getStats`: no null-session guard; the ownership callback
dereferences `user._id` for every stored task. -/
def mockTaskAPI.getStats (s : Store) : Except String (Envelope Stats × Store) := do
  let userTasks ← filterME
    (fun t => (readUserId s.currentUser).map (fun uid => t.userId == uid)) s.tasks
  let st : Stats :=
    { total := userTasks.length,
      pending := (userTasks.filter (fun t => t.status == "pending")).length,
      inProgress := (userTasks.filter (fun t => t.status == "in-progress")).length,
      completed := (userTasks.filter (fun t => t.status == "completed")).length }
  pure ({ success := true, data := some st }, s)

/-- Form state validated by the Dashboard component. -/
structure FormData where
  title : String
  description : String
deriving Repr, DecidableEq

/-- Field-level errors produced by `validateForm`. -/
structure FormErrors where
  title : Option String := none
  description : Option String := none
deriving Repr, DecidableEq

/-- `validateForm` of the Dashboard component: title required (after trim) and
at most 100 characters, description (when truthy) at most 500 characters. -/
def validateForm (fd : FormData) : FormErrors :=
  { title :=
      if fd.title.trim == "" then some "Title is required"
      else if fd.title.length > 100 then some "Title cannot exceed 100 characters"
      else none,
    description :=
      if fd.description != "" && fd.description.length > 500 then
        some "Description cannot exceed 500 characters"
      else none }

/-- The sort keys the `switch` of `getAll` handles; any other value falls to
the `default` branch. -/
def recognizedSort : Option String → Bool
  | some k => k == "newest" || k == "oldest" || k == "title" || k == "priority"
  | none => false

/-- Concrete stored user used by witnesses and counterexamples. -/
def sampleUserRec : User :=
  { _id := "u1", name := "Ada", email := "ada@x.com",
    password := btoa "pw", createdAt := 0 }

/-- The session snapshot of `sampleUserRec`. -/
def sampleUser : PubUser :=
  { _id := "u1", name := "Ada", email := "ada@x.com", createdAt := 0 }

/-- Concrete stored task used by witnesses and counterexamples. -/
def sampleTask : Task :=
  { _id := "t1", userId := "u1", title := "Write spec", description := "",
    status := "pending", priority := "medium", dueDate := none,
    createdAt := 5, updatedAt := 5 }

/-- A second task, completed, with an earlier title and later timestamp. -/
def sampleTask2 : Task :=
  { _id := "t2", userId := "u1", title := "Audit", description := "hello World",
    status := "completed", priority := "high", dueDate := none,
    createdAt := 9, updatedAt := 9 }

/-- A task stored with a status outside the three documented buckets. -/
def blockedTask : Task :=
  { _id := "t3", userId := "u1", title := "Odd", description := "",
    status := "blocked", priority := "medium", dueDate := none,
    createdAt := 2, updatedAt := 2 }

/-- Concrete state with an active session. -/
def sampleStore : Store :=
  { users := [sampleUserRec], tasks := [sampleTask, sampleTask2],
    currentUser := some sampleUser, token := some "tk" }

/-- Concrete state with no active session but a stored task. -/
def noUserStore : Store :=
  { users := [sampleUserRec], tasks := [sampleTask], currentUser := none, token := none }

/-- Concrete state whose only task has the undocumented status. -/
def blockedStore : Store :=
  { users := [sampleUserRec], tasks := [blockedTask],
    currentUser := some sampleUser, token := some "tk" }

/-- With an active session the ownership callback never throws and computes
the boolean conjunction of the source. -/
theorem ownPred_some (u : PubUser) (id : String) (t : Task) :
    ownPred (some u) id t = Except.ok (t._id == id && t.userId == u._id) := by
  unfold ownPred readUserId
  cases h : t._id == id <;> simp [h, Except.map]

/-- A never-throwing callback makes `findME` compute `List.find?`. -/
theorem findME_ok (q : α → Bool) (l : List α) :
    findME (fun a => (Except.ok (q a) : Except ε Bool)) l = Except.ok (l.find? q) := by
  induction l with
  | nil => rfl
  | cons a as ih => cases h : q a <;> simp [findME, h, List.find?, ih]

/-- A never-throwing callback makes `findWithIdxE` compute `findWithIdx`. -/
theorem findWithIdxE_ok (q : α → Bool) (l : List α) :
    findWithIdxE (fun a => (Except.ok (q a) : Except ε Bool)) l =
      Except.ok (findWithIdx q l) := by
  induction l with
  | nil => rfl
  | cons a as ih => cases h : q a <;> simp [findWithIdxE, findWithIdx, h, ih]

/-- A never-throwing callback makes `filterME` compute `List.filter`. -/
theorem filterME_ok (q : α → Bool) (l : List α) :
    filterME (fun a => (Except.ok (q a) : Except ε Bool)) l = Except.ok (l.filter q) := by
  induction l with
  | nil => rfl
  | cons a as ih => cases h : q a <;> simp [filterME, h, List.filter, ih]

/-- With an active session, `findME` over the ownership callback is the pure
search of the source. -/
theorem findME_ownPred (u : PubUser) (id : String) (l : List Task) :
    findME (ownPred (some u) id) l =
      Except.ok (l.find? (fun t => t._id == id && t.userId == u._id)) := by
  have h : ownPred (some u) id = fun t =>
      (Except.ok (t._id == id && t.userId == u._id) : Except String Bool) :=
    funext (ownPred_some u id)
  rw [h, findME_ok]

/-- With an active session, `findWithIdxE` over the ownership callback is the
pure indexed search. -/
theorem findWithIdxE_ownPred (u : PubUser) (id : String) (l : List Task) :
    findWithIdxE (ownPred (some u) id) l =
      Except.ok (findWithIdx (fun t => t._id == id && t.userId == u._id) l) := by
  have h : ownPred (some u) id = fun t =>
      (Except.ok (t._id == id && t.userId == u._id) : Except String Bool) :=
    funext (ownPred_some u id)
  rw [h, findWithIdxE_ok]

/-- With an active session, the `getStats` ownership filter is the pure
filter of the source. -/
theorem filterME_userId (u : PubUser) (l : List Task) :
    filterME (fun t => (readUserId (some u)).map (fun uid => t.userId == uid)) l =
      Except.ok (l.filter (fun t => t.userId == u._id)) := by
  have h : (fun (t : Task) => (readUserId (some u)).map (fun uid => t.userId == uid)) =
      fun t => (Except.ok (t.userId == u._id) : Except String Bool) := by
    funext t; rfl
  rw [h, filterME_ok]

/-- Claim C10: `logout` is total and idempotent: in any state it returns the
successful envelope, clears the current user and the stored token, and a
second call leaves the state of the first call unchanged. -/
theorem c10_logout_total_idempotent (s : Store) :
    mockAuthAPI.logout s =
      ({ success := true, data := none, message := some "Logged out successfully" },
       { s with currentUser := none, token := none }) ∧
    (mockAuthAPI.logout s).2.currentUser = none ∧
    (mockAuthAPI.logout s).2.token = none ∧
    (mockAuthAPI.logout (mockAuthAPI.logout s).2).2 = (mockAuthAPI.logout s).2 :=
  ⟨rfl, rfl, rfl, rfl⟩

/-- Claim C5: when some stored user already has the given email, `signup`
returns the conflict envelope and the whole store, session and token
included, is unchanged. -/
theorem c5_signup_conflict (uid tok : String) (now : Nat) (d : SignupData) (s : Store)
    (h : ∃ v ∈ s.users, v.email = d.email) :
    mockAuthAPI.signup uid tok now d s =
      ({ success := false, data := none, message := some "Email already registered" }, s) := by
  obtain ⟨v, hv, he⟩ := h
  have hs : (s.users.find? (fun u => u.email == d.email)).isSome := by
    rw [List.find?_isSome]
    exact ⟨v, hv, by simp [he]⟩
  unfold mockAuthAPI.signup
  simp [hs]

/-- Claim C5 witness: the sample signup with a duplicate email fails and
leaves the sample store unchanged. -/
theorem c5_signup_conflict_witness :
    (∃ v ∈ sampleStore.users, v.email = "ada@x.com") ∧
    mockAuthAPI.signup "u9" "tk9" 1
        { name := "Bob", email := "ada@x.com", password := "q" } sampleStore =
      ({ success := false, data := none, message := some "Email already registered" },
       sampleStore) := by
  have h : ∃ v ∈ sampleStore.users, v.email = "ada@x.com" :=
    ⟨sampleUserRec, by simp [sampleStore], rfl⟩
  exact ⟨h, c5_signup_conflict "u9" "tk9" 1
    { name := "Bob", email := "ada@x.com", password := "q" } sampleStore h⟩

/-- Claim C2: with no current user, `getOne`, `update`, `delete` and
`getStats` throw a `TypeError` on a matching stored task instead of
returning an envelope, and `getStats` with no stored tasks returns a
successful envelope instead of an unsuccessful one. -/
theorem c2_null_session_crash :
    mockTaskAPI.getOne "t1" noUserStore =
      Except.error "TypeError: cannot read _id of null" ∧
    mockTaskAPI.update 9 "t1" ({} : TaskPatch) noUserStore =
      Except.error "TypeError: cannot read _id of null" ∧
    mockTaskAPI.delete "t1" noUserStore =
      Except.error "TypeError: cannot read _id of null" ∧
    mockTaskAPI.getStats noUserStore =
      Except.error "TypeError: cannot read _id of null" ∧
    (mockTaskAPI.getStats { noUserStore with tasks := [] }).map (fun r => r.1.success) =
      Except.ok true :=
  ⟨rfl, rfl, rfl, rfl, rfl⟩

/-- Claim C1 counterexample: with an active session, `create` with an empty
title returns a successful envelope and appends the task, instead of failing
with a validation error and leaving the store unchanged. -/
theorem c1_counterexample :
    (mockTaskAPI.create "t9" 3 { title := "" } sampleStore).1.success = true ∧
    (mockTaskAPI.create "t9" 3 { title := "" } sampleStore).2.tasks.length =
      sampleStore.tasks.length + 1 :=
  ⟨rfl, rfl⟩

/-- Claim C1 (amended): `create` itself performs no validation: with an
active session it always succeeds, whatever the title and description,
assigning the identifier, default status `pending`, default priority
`medium`, and both timestamps set to now; without an active session it
fails with the unsuccessful not-authenticated envelope and adds no task.
The length rules of the claim live in the form validator `validateForm`,
which flags exactly the empty (after trim) or over-100-character titles and
over-500-character descriptions. -/
theorem c1_create_unvalidated (tid : String) (now : Nat) (d : TaskData) (s : Store)
    (fd : FormData) :
    (∀ u : PubUser, s.currentUser = some u →
      mockTaskAPI.create tid now d s =
        ({ success := true,
           data := some { _id := tid, userId := u._id, title := d.title,
                          description := jsOr d.description "",
                          status := jsOr d.status "pending",
                          priority := jsOr d.priority "medium",
                          dueDate := jsOrNull d.dueDate,
                          createdAt := now, updatedAt := now },
           message := none },
         { s with tasks := s.tasks ++
            [{ _id := tid, userId := u._id, title := d.title,
               description := jsOr d.description "",
               status := jsOr d.status "pending",
               priority := jsOr d.priority "medium",
               dueDate := jsOrNull d.dueDate,
               createdAt := now, updatedAt := now }] })) ∧
    (s.currentUser = none →
      mockTaskAPI.create tid now d s =
        ({ success := false, data := none, message := some "Not authenticated" }, s)) ∧
    ((validateForm fd).title = none ↔ (fd.title.trim ≠ "" ∧ fd.title.length ≤ 100)) ∧
    ((validateForm fd).description = none ↔
      (fd.description = "" ∨ fd.description.length ≤ 500)) := by
  refine ⟨?_, ?_, ?_, ?_⟩
  · intro u h
    unfold mockTaskAPI.create
    rw [h]
  · intro h
    unfold mockTaskAPI.create
    rw [h]
  · show (if fd.title.trim == "" then some "Title is required"
      else if fd.title.length > 100 then some "Title cannot exceed 100 characters"
      else none) = none ↔ _
    split_ifs with h1 h2 <;> simp_all
  · show (if fd.description != "" && fd.description.length > 500 then
        some "Description cannot exceed 500 characters"
      else none) = none ↔ _
    split_ifs with hc
    · simp_all
    · simp only [Bool.and_eq_true, bne_iff_ne, ne_eq, decide_eq_true_eq, not_and,
        not_lt] at hc
      simp only [true_iff]
      by_cases h1 : fd.description = ""
      · exact Or.inl h1
      · exact Or.inr (hc h1)

/-- Claim C1 witness: the amended statement at both concrete session states:
with the sample session an empty-title create succeeds, and at the
no-session store the same call returns the not-authenticated envelope with
the store unchanged. -/
theorem c1_create_unvalidated_witness :
    (mockTaskAPI.create "t9" 3 { title := "x" } sampleStore).1.success = true ∧
    mockTaskAPI.create "t9" 3 { title := "x" } noUserStore =
      ({ success := false, data := none, message := some "Not authenticated" },
       noUserStore) := by
  have h1 := c1_create_unvalidated "t9" 3 { title := "x" } sampleStore
    { title := "x", description := "" }
  have h2 := c1_create_unvalidated "t9" 3 { title := "x" } noUserStore
    { title := "x", description := "" }
  exact ⟨by rw [h1.1 sampleUser rfl], h2.2.1 rfl⟩

/-- Claim C3 counterexample: a patch carrying a `userId` key changes the
stored owner of the task from `u1` to `u2`. -/
theorem c3_counterexample :
    sampleTask.userId = "u1" ∧
    (mockTaskAPI.update 7 "t1" { userId := some "u2" } sampleStore).map
      (fun r => (r.1.success, r.2.tasks.map Task.userId)) =
      Except.ok (true, ["u2", "u1"]) :=
  ⟨rfl, rfl⟩

/-- Claim C3 (amended): with an active session and an owned task, `update`
merges the patch over the existing record and refreshes the updated
timestamp, but every key present in the patch, `userId` included, overrides
the stored value: `userId` is left unchanged only when the patch carries no
`userId` key. -/
theorem c3_update_merges_patch (now : Nat) (id : String) (p : TaskPatch) (s : Store)
    (u : PubUser) (i : Nat) (t0 : Task)
    (hu : s.currentUser = some u)
    (hf : findWithIdx (fun t => t._id == id && t.userId == u._id) s.tasks = some (i, t0)) :
    mockTaskAPI.update now id p s =
      Except.ok
        ({ success := true, data := some (applyTaskPatch t0 p now), message := none },
         { s with tasks := modifyAt (fun _ => applyTaskPatch t0 p now) i s.tasks }) ∧
    (applyTaskPatch t0 p now).updatedAt = now ∧
    (applyTaskPatch t0 p now).createdAt = t0.createdAt ∧
    (applyTaskPatch t0 p now).userId = p.userId.getD t0.userId ∧
    (p.userId = none → (applyTaskPatch t0 p now).userId = t0.userId) := by
  refine ⟨?_, rfl, rfl, rfl, ?_⟩
  · unfold mockTaskAPI.update
    rw [hu, findWithIdxE_ownPred, hf]
    rfl
  · intro hnone
    simp [applyTaskPatch, hnone]

/-- Claim C3 witness: the amended statement at the sample store, with a patch
that only retitles the task. -/
theorem c3_update_merges_patch_witness :
    mockTaskAPI.update 7 "t1" { title := some "Retitled" } sampleStore =
      Except.ok
        ({ success := true,
           data := some (applyTaskPatch sampleTask { title := some "Retitled" } 7),
           message := none },
         { sampleStore with
             tasks := modifyAt (fun _ => applyTaskPatch sampleTask
               { title := some "Retitled" } 7) 0 sampleStore.tasks }) ∧
    (applyTaskPatch sampleTask { title := some "Retitled" } 7).userId = sampleTask.userId :=
  ⟨(c3_update_merges_patch 7 "t1" { title := some "Retitled" } sampleStore
      sampleUser 0 sampleTask rfl rfl).1,
   (c3_update_merges_patch 7 "t1" { title := some "Retitled" } sampleStore
      sampleUser 0 sampleTask rfl rfl).2.2.2.2 rfl⟩

/-- Claim C4 counterexample: `updateProfile` called with a patch carrying a
`password` key returns a user object that contains that key. -/
theorem c4_counterexample :
    ((mockAuthAPI.updateProfile { password := some "x" } sampleStore).1.data).map
      (fun v => v.password) = some (some "x") :=
  rfl

/-- Claim C4 (amended): `signup` and `login` always return a user without a
password key, and `getMe` does so whenever the session snapshot is free of
one; `updateProfile` returns a password-free user provided the snapshot and
the patch are both free of a password key — a patch carrying one is copied
into the returned user. -/
theorem c4_password_exposure :
    (∀ (uid tok : String) (now : Nat) (d : SignupData) (s : Store) (ad : AuthData),
       (mockAuthAPI.signup uid tok now d s).1.data = some ad → ad.user.password = none) ∧
    (∀ (tok : String) (d : LoginData) (s : Store) (ad : AuthData),
       (mockAuthAPI.login tok d s).1.data = some ad → ad.user.password = none) ∧
    (∀ (s : Store) (u v : PubUser),
       s.currentUser = some u → u.password = none →
       (mockAuthAPI.getMe s).1.data = some v → v.password = none) ∧
    (∀ (p : ProfilePatch) (s : Store) (u v : PubUser),
       s.currentUser = some u → u.password = none → p.password = none →
       (mockAuthAPI.updateProfile p s).1.data = some v → v.password = none) := by
  refine ⟨?_, ?_, ?_, ?_⟩
  · intro uid tok now d s ad h
    unfold mockAuthAPI.signup at h
    by_cases hc : (s.users.find? (fun u => u.email == d.email)).isSome
    · simp [hc] at h
    · simp [hc] at h
      rw [← h]
  · intro tok d s ad h
    unfold mockAuthAPI.login at h
    cases hf : s.users.find? (fun u => u.email == d.email) with
    | none => rw [hf] at h; simp at h
    | some w =>
      rw [hf] at h
      by_cases hv : verifyPassword d.password w.password
      · simp [hv] at h
        rw [← h]
      · simp [hv] at h
  · intro s u v hu hp h
    unfold mockAuthAPI.getMe at h
    rw [hu] at h
    simp at h
    rw [← h]
    exact hp
  · intro p s u v hu hp hpp h
    unfold mockAuthAPI.updateProfile at h
    rw [hu] at h
    simp at h
    rw [← h]
    simp [mergePub, hpp]
    exact hp

/-- Claim C4 witness: the amended `updateProfile` clause at the sample store
with a name-only patch. -/
theorem c4_password_exposure_witness :
    (mergePub sampleUser { name := some "Noor" }).password = none :=
  c4_password_exposure.2.2.2 { name := some "Noor" } sampleStore sampleUser
    (mergePub sampleUser { name := some "Noor" }) rfl rfl rfl rfl

/-- Claim C6: with an active session whose stored record is found, a
`changePassword` call with a non-matching current password returns the
unsuccessful envelope and leaves the whole store unchanged, so a login with
the old password (against the same stored record) still succeeds and returns
the same user identifier. -/
theorem c6_change_password_wrong_current (d : PwData) (s : Store) (u : PubUser)
    (i : Nat) (v : User)
    (hu : s.currentUser = some u)
    (hf : findWithIdx (fun w => w._id == u._id) s.users = some (i, v))
    (hw : verifyPassword d.currentPassword v.password = false) :
    mockAuthAPI.changePassword d s =
      ({ success := false, data := none, message := some "Current password is incorrect" },
       s) ∧
    (∀ (tok e0 pw0 : String),
       hashPassword pw0 = v.password →
       s.users.find? (fun w => w.email == e0) = some v →
       ((mockAuthAPI.login tok { email := e0, password := pw0 }
           (mockAuthAPI.changePassword d s).2).1.success = true ∧
        ((mockAuthAPI.login tok { email := e0, password := pw0 }
            (mockAuthAPI.changePassword d s).2).1.data).map (fun ad => ad.user._id) =
          some v._id)) := by
  have h1 : mockAuthAPI.changePassword d s =
      ({ success := false, data := none, message := some "Current password is incorrect" },
       s) := by
    unfold mockAuthAPI.changePassword
    simp only [hu, hf, hw]
    simp
  refine ⟨h1, ?_⟩
  intro tok e0 pw0 hpw hfind
  rw [h1]
  have hv : verifyPassword pw0 v.password = true := by
    unfold verifyPassword
    rw [← hpw]
    unfold hashPassword
    simp
  unfold mockAuthAPI.login
  simp only [hfind, hv]
  exact ⟨rfl, rfl⟩

/-- Claim C6 witness: at the sample store, a wrong current password fails and
the old password still logs in afterwards. -/
theorem c6_change_password_wrong_current_witness :
    mockAuthAPI.changePassword { currentPassword := "bad", newPassword := "next" }
        sampleStore =
      ({ success := false, data := none, message := some "Current password is incorrect" },
       sampleStore) ∧
    ((mockAuthAPI.login "tk2" { email := "ada@x.com", password := "pw" }
        (mockAuthAPI.changePassword { currentPassword := "bad", newPassword := "next" }
          sampleStore).2).1.success = true ∧
     ((mockAuthAPI.login "tk2" { email := "ada@x.com", password := "pw" }
         (mockAuthAPI.changePassword { currentPassword := "bad", newPassword := "next" }
           sampleStore).2).1.data).map (fun ad => ad.user._id) = some sampleUserRec._id) := by
  have h := c6_change_password_wrong_current
    { currentPassword := "bad", newPassword := "next" } sampleStore sampleUser 0
    sampleUserRec rfl rfl (by decide)
  exact ⟨h.1, h.2 "tk2" "ada@x.com" "pw" rfl rfl⟩

/-- The three status buckets never count more than the whole list, and count
exactly the whole list when every element carries one of the three
statuses. -/
theorem status_bucket_counts (l : List Task) :
    ((l.filter (fun t => t.status == "pending")).length +
     (l.filter (fun t => t.status == "in-progress")).length +
     (l.filter (fun t => t.status == "completed")).length ≤ l.length) ∧
    ((∀ t ∈ l, t.status = "pending" ∨ t.status = "in-progress" ∨ t.status = "completed") →
     (l.filter (fun t => t.status == "pending")).length +
     (l.filter (fun t => t.status == "in-progress")).length +
     (l.filter (fun t => t.status == "completed")).length = l.length) := by
  induction l with
  | nil => simp
  | cons t l ih =>
    have hle := ih.1
    have hall : (∀ x ∈ t :: l, x.status = "pending" ∨ x.status = "in-progress" ∨
        x.status = "completed") →
        ∀ x ∈ l, x.status = "pending" ∨ x.status = "in-progress" ∨ x.status = "completed" :=
      fun h x hx => h x (List.mem_cons_of_mem t hx)
    by_cases h1 : t.status = "pending"
    · have h2 : ¬t.status = "in-progress" := by rw [h1]; decide
      have h3 : ¬t.status = "completed" := by rw [h1]; decide
      constructor
      · simp [List.filter_cons, h1, h2, h3]
        omega
      · intro hv
        have heq := ih.2 (hall hv)
        simp [List.filter_cons, h1, h2, h3]
        omega
    · by_cases h2 : t.status = "in-progress"
      · have h3 : ¬t.status = "completed" := by rw [h2]; decide
        constructor
        · simp [List.filter_cons, h1, h2, h3]
          omega
        · intro hv
          have heq := ih.2 (hall hv)
          simp [List.filter_cons, h1, h2, h3]
          omega
      · by_cases h3 : t.status = "completed"
        · constructor
          · simp [List.filter_cons, h1, h2, h3]
            omega
          · intro hv
            have heq := ih.2 (hall hv)
            simp [List.filter_cons, h1, h2, h3]
            omega
        · constructor
          · simp [List.filter_cons, h1, h2, h3]
            omega
          · intro hv
            rcases hv t (List.mem_cons_self t l) with h | h | h
            · exact absurd h h1
            · exact absurd h h2
            · exact absurd h h3

/-- Claim C7 counterexample: a stored task with status `blocked` is counted
in `total` but in no bucket, so the three buckets sum to `0`, not to the
total `1`. -/
theorem c7_counterexample :
    (mockTaskAPI.getStats blockedStore).map (fun r => r.1.data) =
      Except.ok (some { total := 1, pending := 0, inProgress := 0, completed := 0 }) :=
  rfl

/-- Claim C7 (amended): with an active session, `getStats` counts over
exactly the tasks of the current user; the three buckets sum to at most the
total, with equality whenever every one of those tasks carries one of the
three documented statuses (a task stored with any other status string is
counted in the total but in no bucket). -/
theorem c7_stats_buckets (s : Store) (u : PubUser) (hu : s.currentUser = some u) :
    mockTaskAPI.getStats s = Except.ok
      ({ success := true,
         data := some
           { total := (s.tasks.filter (fun t => t.userId == u._id)).length,
             pending := ((s.tasks.filter (fun t => t.userId == u._id)).filter
               (fun t => t.status == "pending")).length,
             inProgress := ((s.tasks.filter (fun t => t.userId == u._id)).filter
               (fun t => t.status == "in-progress")).length,
             completed := ((s.tasks.filter (fun t => t.userId == u._id)).filter
               (fun t => t.status == "completed")).length },
         message := none }, s) ∧
    (((s.tasks.filter (fun t => t.userId == u._id)).filter
        (fun t => t.status == "pending")).length +
     ((s.tasks.filter (fun t => t.userId == u._id)).filter
        (fun t => t.status == "in-progress")).length +
     ((s.tasks.filter (fun t => t.userId == u._id)).filter
        (fun t => t.status == "completed")).length ≤
     (s.tasks.filter (fun t => t.userId == u._id)).length) ∧
    ((∀ t ∈ s.tasks.filter (fun t => t.userId == u._id),
        t.status = "pending" ∨ t.status = "in-progress" ∨ t.status = "completed") →
     ((s.tasks.filter (fun t => t.userId == u._id)).filter
        (fun t => t.status == "pending")).length +
     ((s.tasks.filter (fun t => t.userId == u._id)).filter
        (fun t => t.status == "in-progress")).length +
     ((s.tasks.filter (fun t => t.userId == u._id)).filter
        (fun t => t.status == "completed")).length =
     (s.tasks.filter (fun t => t.userId == u._id)).length) := by
  refine ⟨?_, (status_bucket_counts _).1, (status_bucket_counts _).2⟩
  unfold mockTaskAPI.getStats
  rw [hu, filterME_userId]
  rfl

/-- Claim C7 witness: the amended statement at the sample store, whose two
tasks carry documented statuses, so the buckets sum exactly to the total. -/
theorem c7_stats_buckets_witness :
    (mockTaskAPI.getStats sampleStore).map (fun r => r.1.data) =
      Except.ok (some { total := 2, pending := 1, inProgress := 0, completed := 1 }) := by
  have h := (c7_stats_buckets sampleStore sampleUser rfl).1
  rw [h]
  rfl

/-- Claim C9: signing up with an email no stored user carries succeeds and
returns the fresh identifier, and a subsequent login with the same email and
password succeeds and returns that same identifier. -/
theorem c9_signup_then_login (uid tok1 tok2 : String) (now : Nat) (d : SignupData)
    (s : Store)
    (h : s.users.find? (fun u => u.email == d.email) = none) :
    (mockAuthAPI.signup uid tok1 now d s).1.success = true ∧
    ((mockAuthAPI.signup uid tok1 now d s).1.data).map (fun ad => ad.user._id) =
      some uid ∧
    (mockAuthAPI.login tok2 { email := d.email, password := d.password }
        (mockAuthAPI.signup uid tok1 now d s).2).1.success = true ∧
    ((mockAuthAPI.login tok2 { email := d.email, password := d.password }
        (mockAuthAPI.signup uid tok1 now d s).2).1.data).map (fun ad => ad.user._id) =
      some uid := by
  have hns : ¬(s.users.find? (fun u => u.email == d.email)).isSome := by
    rw [h]; simp
  have hsu : mockAuthAPI.signup uid tok1 now d s =
      ({ success := true,
         data := some
           { token := tok1,
             user := { _id := uid, name := d.name, email := d.email,
                       createdAt := now, password := none } },
         message := none },
       { s with
           users := s.users ++
             [{ _id := uid, name := d.name, email := d.email,
                password := hashPassword d.password, createdAt := now }],
           currentUser := some
             { _id := uid, name := d.name, email := d.email,
               createdAt := now, password := none },
           token := some tok1 }) := by
    unfold mockAuthAPI.signup
    simp only [hns, if_false]
    simp
  have hfind : ((mockAuthAPI.signup uid tok1 now d s).2.users.find?
      (fun u => u.email == d.email)) =
      some { _id := uid, name := d.name, email := d.email,
             password := hashPassword d.password, createdAt := now } := by
    rw [hsu]
    simp only [List.find?_append, h]
    simp [List.find?]
  have hv : verifyPassword d.password (hashPassword d.password) = true := by
    unfold verifyPassword hashPassword
    simp
  refine ⟨by rw [hsu], by rw [hsu]; rfl, ?_, ?_⟩
  · unfold mockAuthAPI.login
    simp only [hfind, hv]
    simp
  · unfold mockAuthAPI.login
    simp only [hfind, hv]
    simp

/-- Claim C9 witness: a fresh signup into the empty store followed by a login
with the same credentials, both returning identifier `u7`. -/
theorem c9_signup_then_login_witness :
    (mockAuthAPI.signup "u7" "tkA" 4
      { name := "Ada", email := "new@x.com", password := "secret1" }
      { users := [], tasks := [], currentUser := none, token := none }).1.success = true ∧
    ((mockAuthAPI.signup "u7" "tkA" 4
      { name := "Ada", email := "new@x.com", password := "secret1" }
      { users := [], tasks := [], currentUser := none, token := none }).1.data).map
        (fun ad => ad.user._id) = some "u7" ∧
    (mockAuthAPI.login "tkB" { email := "new@x.com", password := "secret1" }
      (mockAuthAPI.signup "u7" "tkA" 4
        { name := "Ada", email := "new@x.com", password := "secret1" }
        { users := [], tasks := [], currentUser := none, token := none }).2).1.success =
      true ∧
    ((mockAuthAPI.login "tkB" { email := "new@x.com", password := "secret1" }
      (mockAuthAPI.signup "u7" "tkA" 4
        { name := "Ada", email := "new@x.com", password := "secret1" }
        { users := [], tasks := [], currentUser := none, token := none }).2).1.data).map
        (fun ad => ad.user._id) = some "u7" :=
  c9_signup_then_login "u7" "tkA" "tkB" 4
    { name := "Ada", email := "new@x.com", password := "secret1" }
    { users := [], tasks := [], currentUser := none, token := none } rfl

/-- The status filter step only discards tasks. -/
theorem mem_of_mem_statusFilter {p : GetAllParams} {l : List Task} {t : Task}
    (h : t ∈ statusFilter p l) : t ∈ l := by
  unfold statusFilter at h
  cases hs : p.status with
  | none => rw [hs] at h; exact h
  | some st =>
    rw [hs] at h
    dsimp only at h
    by_cases hc : (st != "" && st != "all") = true
    · rw [if_pos hc] at h
      exact List.mem_of_mem_filter h
    · rw [if_neg hc] at h
      exact h

/-- An active status filter only lets tasks with that status through. -/
theorem status_of_mem_statusFilter {p : GetAllParams} {l : List Task} {t : Task}
    {st : String} (hst : p.status = some st) (h1 : st ≠ "") (h2 : st ≠ "all")
    (h : t ∈ statusFilter p l) : t.status = st := by
  unfold statusFilter at h
  rw [hst] at h
  dsimp only at h
  have hc : (st != "" && st != "all") = true := by
    simp [h1, h2]
  rw [if_pos hc] at h
  simpa using (List.mem_filter.mp h).2

/-- The priority filter step only discards tasks. -/
theorem mem_of_mem_priorityFilter {p : GetAllParams} {l : List Task} {t : Task}
    (h : t ∈ priorityFilter p l) : t ∈ l := by
  unfold priorityFilter at h
  cases hs : p.priority with
  | none => rw [hs] at h; exact h
  | some pr =>
    rw [hs] at h
    dsimp only at h
    by_cases hc : (pr != "" && pr != "all") = true
    · rw [if_pos hc] at h
      exact List.mem_of_mem_filter h
    · rw [if_neg hc] at h
      exact h

/-- An active priority filter only lets tasks with that priority through. -/
theorem priority_of_mem_priorityFilter {p : GetAllParams} {l : List Task} {t : Task}
    {pr : String} (hpr : p.priority = some pr) (h1 : pr ≠ "") (h2 : pr ≠ "all")
    (h : t ∈ priorityFilter p l) : t.priority = pr := by
  unfold priorityFilter at h
  rw [hpr] at h
  dsimp only at h
  have hc : (pr != "" && pr != "all") = true := by
    simp [h1, h2]
  rw [if_pos hc] at h
  simpa using (List.mem_filter.mp h).2

/-- The search filter step only discards tasks. -/
theorem mem_of_mem_searchFilter {p : GetAllParams} {l : List Task} {t : Task}
    (h : t ∈ searchFilter p l) : t ∈ l := by
  unfold searchFilter at h
  cases hs : p.search with
  | none => rw [hs] at h; exact h
  | some q =>
    rw [hs] at h
    dsimp only at h
    by_cases hc : (q != "") = true
    · rw [if_pos hc] at h
      exact List.mem_of_mem_filter h
    · rw [if_neg hc] at h
      exact h

/-- An active search filter only lets matching tasks through. -/
theorem hit_of_mem_searchFilter {p : GetAllParams} {l : List Task} {t : Task}
    {q : String} (hq : p.search = some q) (h1 : q ≠ "")
    (h : t ∈ searchFilter p l) : searchHit q.toLower t = true := by
  unfold searchFilter at h
  rw [hq] at h
  dsimp only at h
  have hc : (q != "") = true := by simp [h1]
  rw [if_pos hc] at h
  exact (List.mem_filter.mp h).2

/-- A task surviving the whole filter pipeline is a stored task of the
current user. -/
theorem mem_filteredTasks {p : GetAllParams} {s : Store} {u : PubUser} {t : Task}
    (h : t ∈ filteredTasks p s u) : t ∈ s.tasks ∧ t.userId = u._id := by
  unfold filteredTasks at h
  have h3 := mem_of_mem_statusFilter (mem_of_mem_priorityFilter (mem_of_mem_searchFilter h))
  have h4 := List.mem_filter.mp h3
  exact ⟨h4.1, by simpa using h4.2⟩

/-- The sort step is always a permutation of its input. -/
theorem applySort_perm (p : GetAllParams) (l : List Task) : List.Perm (applySort p l) l := by
  unfold applySort
  cases p.sort with
  | none => exact List.Perm.refl l
  | some k =>
    dsimp only
    split_ifs <;>
      first
        | exact List.perm_insertionSort _ _
        | exact List.Perm.refl l

/-- A falsy or unrecognized sort key leaves the order unchanged. -/
theorem applySort_id_of_unrecognized (p : GetAllParams) (l : List Task)
    (h : recognizedSort p.sort = false) : applySort p l = l := by
  unfold applySort
  cases hs : p.sort with
  | none => rfl
  | some k =>
    rw [hs] at h
    unfold recognizedSort at h
    simp only [Bool.or_eq_false_iff] at h
    obtain ⟨⟨⟨h1, h2⟩, h3⟩, h4⟩ := h
    simp [h1, h2, h3, h4]

/-- `orderedInsert` only depends on the relation at the inserted element and
the list elements. -/
theorem orderedInsert_congr {α : Type} {r rq : α → α → Prop}
    [DecidableRel r] [DecidableRel rq] (a : α) (l : List α)
    (h : ∀ b ∈ l, (r a b ↔ rq a b)) :
    List.orderedInsert r a l = List.orderedInsert rq a l := by
  induction l with
  | nil => rfl
  | cons b l ih =>
    simp only [List.orderedInsert]
    by_cases hb : rq a b
    · rw [if_pos ((h b (List.mem_cons_self b l)).mpr hb), if_pos hb]
    · rw [if_neg (fun hr => hb ((h b (List.mem_cons_self b l)).mp hr)), if_neg hb,
        ih (fun c hc => h c (List.mem_cons_of_mem b hc))]

/-- `insertionSort` only depends on the relation at the list elements. -/
theorem insertionSort_congr {α : Type} {r rq : α → α → Prop}
    [DecidableRel r] [DecidableRel rq] (l : List α)
    (h : ∀ a ∈ l, ∀ b ∈ l, (r a b ↔ rq a b)) :
    List.insertionSort r l = List.insertionSort rq l := by
  induction l with
  | nil => rfl
  | cons a l ih =>
    simp only [List.insertionSort]
    rw [ih (fun x hx y hy =>
        h x (List.mem_cons_of_mem a hx) y (List.mem_cons_of_mem a hy)),
      orderedInsert_congr a _ (fun b hb => h a (List.mem_cons_self a l) b
        (List.mem_cons_of_mem a ((List.mem_insertionSort _).mp hb)))]

/-- On a list of tasks with valid priorities, the JS comparator sort orders
by priority rank. -/
theorem priority_sort_sorted (l : List Task)
    (hv : ∀ t ∈ l, validPrio t.priority = true) :
    (List.insertionSort rPriority l).Pairwise rPrioRank := by
  have heq : List.insertionSort rPriority l = List.insertionSort rPrioRank l := by
    refine insertionSort_congr l (fun a ha b hb => ?_)
    unfold rPriority rPrioRank jsPrioCmp
    rw [hv a ha, hv b hb]
    simp only [Bool.and_self, if_true]
    omega
  rw [heq]
  exact List.sorted_insertionSort rPrioRank l

/-- Claim C8: with an active session, `getAll` returns the successful
envelope holding exactly the stored tasks of the current user that pass, in
order, the status, priority and search filters (each skipped when its
parameter is absent, empty or — for status and priority — `all`), as a
permutation sorted per the sort key: newest or oldest by created timestamp,
title lexicographic ascending, priority by rank high before medium before
low (on tasks with valid priorities), and with no reordering at all for an
absent, empty or unrecognized sort value.  In particular, with
`status = "completed"` every returned task has that status. -/
theorem c8_getAll_contract (p : GetAllParams) (s : Store) (u : PubUser)
    (h : s.currentUser = some u) :
    (mockTaskAPI.getAll p s =
      ({ success := true,
         data := some { data := getAllResult p s u, total := (getAllResult p s u).length },
         message := none }, s)) ∧
    List.Perm (getAllResult p s u) (filteredTasks p s u) ∧
    (recognizedSort p.sort = false → getAllResult p s u = filteredTasks p s u) ∧
    (∀ t ∈ getAllResult p s u, t ∈ s.tasks ∧ t.userId = u._id) ∧
    (∀ st, p.status = some st → st ≠ "" → st ≠ "all" →
       ∀ t ∈ getAllResult p s u, t.status = st) ∧
    (∀ pr, p.priority = some pr → pr ≠ "" → pr ≠ "all" →
       ∀ t ∈ getAllResult p s u, t.priority = pr) ∧
    (∀ q, p.search = some q → q ≠ "" →
       ∀ t ∈ getAllResult p s u, searchHit q.toLower t = true) ∧
    (p.sort = some "newest" →
       (getAllResult p s u).Pairwise (fun a b => b.createdAt ≤ a.createdAt)) ∧
    (p.sort = some "oldest" →
       (getAllResult p s u).Pairwise (fun a b => a.createdAt ≤ b.createdAt)) ∧
    (p.sort = some "title" →
       (getAllResult p s u).Pairwise (fun a b => a.title ≤ b.title)) ∧
    (p.sort = some "priority" →
       (∀ t ∈ filteredTasks p s u, validPrio t.priority = true) →
       (getAllResult p s u).Pairwise
         (fun a b => prioRank a.priority ≤ prioRank b.priority)) := by
  have hperm : List.Perm (getAllResult p s u) (filteredTasks p s u) := applySort_perm p _
  refine ⟨?_, hperm, applySort_id_of_unrecognized p _, ?_, ?_, ?_, ?_, ?_, ?_, ?_, ?_⟩
  · unfold mockTaskAPI.getAll
    rw [h]
  · intro t ht
    exact mem_filteredTasks (hperm.subset ht)
  · intro st hst h1 h2 t ht
    exact status_of_mem_statusFilter hst h1 h2
      (mem_of_mem_priorityFilter (mem_of_mem_searchFilter (hperm.subset ht)))
  · intro pr hpr h1 h2 t ht
    exact priority_of_mem_priorityFilter hpr h1 h2
      (mem_of_mem_searchFilter (hperm.subset ht))
  · intro q hq h1 t ht
    exact hit_of_mem_searchFilter hq h1 (hperm.subset ht)
  · intro hk
    unfold getAllResult applySort
    rw [hk]
    simp only [show (("newest" : String) == "newest") = true from rfl, if_true]
    exact (List.sorted_insertionSort rNewest _).imp (fun hab => hab)
  · intro hk
    unfold getAllResult applySort
    rw [hk]
    simp only [show (("oldest" : String) == "newest") = false from rfl,
      show (("oldest" : String) == "oldest") = true from rfl]
    simp only [Bool.false_eq_true, if_false, if_true]
    exact (List.sorted_insertionSort rOldest _).imp (fun hab => hab)
  · intro hk
    unfold getAllResult applySort
    rw [hk]
    simp only [show (("title" : String) == "newest") = false from rfl,
      show (("title" : String) == "oldest") = false from rfl,
      show (("title" : String) == "title") = true from rfl]
    simp only [Bool.false_eq_true, if_false, if_true]
    exact (List.sorted_insertionSort rTitle _).imp (fun hab => hab)
  · intro hk hv
    unfold getAllResult applySort
    rw [hk]
    simp only [show (("priority" : String) == "newest") = false from rfl,
      show (("priority" : String) == "oldest") = false from rfl,
      show (("priority" : String) == "title") = false from rfl,
      show (("priority" : String) == "priority") = true from rfl]
    simp only [Bool.false_eq_true, if_false, if_true]
    exact (priority_sort_sorted _ hv).imp (fun hab => hab)

/-- Claim C8 witness: the contract applied at the sample store with the
completed-status filter. -/
theorem c8_getAll_contract_witness :
    mockTaskAPI.getAll { status := some "completed" } sampleStore =
      ({ success := true,
         data := some
           { data := getAllResult { status := some "completed" } sampleStore sampleUser,
             total := (getAllResult { status := some "completed" } sampleStore
               sampleUser).length },
         message := none }, sampleStore) :=
  (c8_getAll_contract { status := some "completed" } sampleStore sampleUser rfl).1

end Mock
